import Mathlib

/-!
# Verification of the rustical request/response core

A shallow embedding of the message-oriented request/response protocol of the
repository (homework-16 server/common, homework-13 storage pipeline), together
with proofs about the wire codec, the message model, the error taxonomy, the
command dispatcher, the connection loop and the file/image storage pipeline.

Machine integers are modelled as `Nat` (bytes are `Nat` values below 256 where
it matters); fallible code returns `Option`/`Except`; a Rust panic is modelled
as `Option.none` (or a dedicated `panic` outcome); filesystem, clock and
image-codec effects are supplied by an explicit `Effects` record so that every
definition stays executable.
-/

namespace Rustical

/-! ## JSON data model

`serde_json` serializes through its `Value` data model; the message schema only
ever produces `null`, strings and objects, so the embedding restricts the JSON
tree to those constructors.  `String` keys are looked up in declaration order,
matching object field access on a map without duplicate keys. -/

inductive Json where
  | null
  | str (s : String)
  | obj (fields : List (String × Json))
deriving Repr

/-- Field lookup in a JSON object's field list (serde map access). -/
def jsonLookup (fields : List (String × Json)) (key : String) : Option Json :=
  (fields.find? (fun kv => kv.1 == key)).map (fun kv => kv.2)

/-- Projection of a JSON value to a string (`Value::as_str`). -/
def Json.asStr : Json → Option String
  | .str s => some s
  | _ => none

/-! ## Message model (homework-16/common/src/message.rs) -/

/-- The `Payload` enum: the closed tagged union of client commands. -/
inductive Payload where
  | help
  | info (info : String) (hostname : String)
  | msg (text : String)
  | file (filename : String) (content : String)
  | image (filename : String) (content : String)
  | quit
deriving Repr, DecidableEq

/-- `Payload::variant_name` generated by the `EnumVariantName` derive macro:
the discriminant name of each variant. -/
def Payload.variantName : Payload → String
  | .help => "Help"
  | .info _ _ => "Info"
  | .msg _ => "Msg"
  | .file _ _ => "File"
  | .image _ _ => "Image"
  | .quit => "Quit"

/-- `ClientServerMessage`: msg_id plus optional payload. -/
structure ClientServerMessage where
  msgId : String
  payload : Option Payload
deriving Repr, DecidableEq

/-- `ServerClientMessage`: the response tagged union. -/
inductive ServerClientMessage where
  | ok (msgIdRef : String) (text : Option String)
  | error (msgIdRef : String) (code : String) (text : Option String)
  | quit (msgIdRef : String) (text : Option String)
deriving Repr, DecidableEq

/-- The `msg_id_ref` field common to all three response variants. -/
def ServerClientMessage.msgIdRef : ServerClientMessage → String
  | .ok r _ => r
  | .error r _ _ => r
  | .quit r _ => r

/-! ## Serialization of the request

`#[serde(tag = "type", content = "data")]` on `Payload` produces
`{"type": <discriminant>, "data": { ...variant fields }}`; the surrounding
`ClientServerMessage` struct serializes its fields in declaration order,
with `Option::None` rendered as `null`. -/

/-- Serialization of a `Payload` to its serde_json value. -/
def payloadToJson : Payload → Json
  | .help => .obj [("type", .str "Help"), ("data", .obj [])]
  | .info i h =>
      .obj [("type", .str "Info"),
            ("data", .obj [("info", .str i), ("hostname", .str h)])]
  | .msg t => .obj [("type", .str "Msg"), ("data", .obj [("text", .str t)])]
  | .file f c =>
      .obj [("type", .str "File"),
            ("data", .obj [("filename", .str f), ("content", .str c)])]
  | .image f c =>
      .obj [("type", .str "Image"),
            ("data", .obj [("filename", .str f), ("content", .str c)])]
  | .quit => .obj [("type", .str "Quit"), ("data", .obj [])]

/-- Serialization of a `ClientServerMessage` to its serde_json value. -/
def clientServerMessageToJson (m : ClientServerMessage) : Json :=
  .obj [("msg_id", .str m.msgId),
        ("payload", match m.payload with
          | none => .null
          | some p => payloadToJson p)]

/-- Deserialization of a `Payload` from a serde_json value: the `type` key
selects the variant, the `data` object supplies the named fields (unknown
extra fields are ignored, as serde does by default). -/
def payloadFromJson (j : Json) : Option Payload :=
  match j with
  | .obj fields =>
    match jsonLookup fields "type" with
    | some (.str tag) =>
      match jsonLookup fields "data" with
      | some (.obj dataFields) =>
        if tag = "Help" then some .help
        else if tag = "Info" then
          match jsonLookup dataFields "info", jsonLookup dataFields "hostname" with
          | some (.str i), some (.str h) => some (.info i h)
          | _, _ => none
        else if tag = "Msg" then
          match jsonLookup dataFields "text" with
          | some (.str t) => some (.msg t)
          | _ => none
        else if tag = "File" then
          match jsonLookup dataFields "filename", jsonLookup dataFields "content" with
          | some (.str f), some (.str c) => some (.file f c)
          | _, _ => none
        else if tag = "Image" then
          match jsonLookup dataFields "filename", jsonLookup dataFields "content" with
          | some (.str f), some (.str c) => some (.image f c)
          | _, _ => none
        else if tag = "Quit" then some .quit
        else none
      | _ => none
    | _ => none
  | _ => none

/-- Deserialization of a `ClientServerMessage`: `msg_id` is a required string,
`payload` is optional (absent or `null` both deserialize to `None`). -/
def clientServerMessageFromJson (j : Json) : Option ClientServerMessage :=
  match j with
  | .obj fields =>
    match jsonLookup fields "msg_id" with
    | some (.str id) =>
      match jsonLookup fields "payload" with
      | none => some ⟨id, none⟩
      | some .null => some ⟨id, none⟩
      | some pj =>
        match payloadFromJson pj with
        | some p => some ⟨id, some p⟩
        | none => none
    | _ => none
  | _ => none

/-- `Payload::get`: serialize the payload to a serde_json value and project the
given top-level key to a string, `None` when absent or not a string. -/
def Payload.get (p : Payload) (key : String) : Option String :=
  match payloadToJson p with
  | .obj map => (jsonLookup map key).bind Json.asStr
  | _ => none

/-! ## Error taxonomy (homework-16/server/src/server_error.rs)

`ServerError` variants each carry a message and an optional boxed cause
(`Option<Box<dyn Error>>`).  A boxed `dyn Error` can hold a `ServerError`, a
`std::io::Error`, a `serde_json::Error`, a `base64::DecodeError`, an image
crate error, or the opaque error a `String` converts into; `DynError` models
these.  Because `collect_error_messages` observes a cause only through
`&dyn Error`, the type name it prints is always the erased
`dyn core::error::Error`, whose simple name is `"Error"`. -/

mutual

inductive ServerError where
  | invalidEncoding (msg : String) (cause : Option DynError)
  | imageProcessingFailed (msg : String) (cause : Option DynError)
  | generalIssue (msg : String) (cause : Option DynError)
  | messageProcessingFailed (msg : String) (cause : Option DynError)
  | messageReceiveFailed (msg : String) (cause : Option DynError)
  | responseSendingFailed (msg : String) (cause : Option DynError)

inductive DynError where
  | ioError (kind : String) (msg : String)
  | serdeError (msg : String)
  | strError (msg : String)
  | decodeError (msg : String)
  | imageError (msg : String)
  | server (e : ServerError)

end

/-- `ServerError::variant_name` from the `EnumVariantName` derive macro. -/
def ServerError.variantName : ServerError → String
  | .invalidEncoding _ _ => "InvalidEncoding"
  | .imageProcessingFailed _ _ => "ImageProcessingFailed"
  | .generalIssue _ _ => "GeneralIssue"
  | .messageProcessingFailed _ _ => "MessageProcessingFailed"
  | .messageReceiveFailed _ _ => "MessageReceiveFailed"
  | .responseSendingFailed _ _ => "ResponseSendingFailed"

/-- The `#[source]` cause attached to a `ServerError` (`Error::source`). -/
def ServerError.cause : ServerError → Option DynError
  | .invalidEncoding _ c => c
  | .imageProcessingFailed _ c => c
  | .generalIssue _ c => c
  | .messageProcessingFailed _ c => c
  | .messageReceiveFailed _ c => c
  | .responseSendingFailed _ c => c

/-- The `Display` rendering generated by thiserror's `#[error("...: {0}")]`. -/
def ServerError.display : ServerError → String
  | .invalidEncoding m _ => "Invalid encoding: " ++ m
  | .imageProcessingFailed m _ => "Image processing failed: " ++ m
  | .generalIssue m _ => "General issue: " ++ m
  | .messageProcessingFailed m _ => "Message processing failed: " ++ m
  | .messageReceiveFailed m _ => "Message receive failed: " ++ m
  | .responseSendingFailed m _ => "Response sending failed: " ++ m

/-- `Display` of a boxed cause. -/
def DynError.display : DynError → String
  | .ioError _ m => m
  | .serdeError m => m
  | .strError m => m
  | .decodeError m => m
  | .imageError m => m
  | .server e => e.display

/-- `collect_error_messages` (common/src/util.rs): walk the `source` chain and
render each element as `"<simple type name>: <display>"`, joined with `": "`.
Since the elements are seen as `&dyn Error`, the simple type name is always
`"Error"`.  Of the modelled causes only a boxed `ServerError` itself has a
further `source`; io/serde/base64/image/string causes end the chain. -/
def collectChain : DynError → List String
  | .ioError _ m => ["Error: " ++ m]
  | .serdeError m => ["Error: " ++ m]
  | .strError m => ["Error: " ++ m]
  | .decodeError m => ["Error: " ++ m]
  | .imageError m => ["Error: " ++ m]
  | .server (.invalidEncoding m c) => serverChain ("Invalid encoding: " ++ m) c
  | .server (.imageProcessingFailed m c) =>
      serverChain ("Image processing failed: " ++ m) c
  | .server (.generalIssue m c) => serverChain ("General issue: " ++ m) c
  | .server (.messageProcessingFailed m c) =>
      serverChain ("Message processing failed: " ++ m) c
  | .server (.messageReceiveFailed m c) =>
      serverChain ("Message receive failed: " ++ m) c
  | .server (.responseSendingFailed m c) =>
      serverChain ("Response sending failed: " ++ m) c
where
  serverChain (display : String) : Option DynError → List String
    | none => ["Error: " ++ display]
    | some c => ("Error: " ++ display) :: collectChain c

/-- `collect_error_messages` as a single string. -/
def collectErrorMessages (d : DynError) : String :=
  String.intercalate ": " (collectChain d)

/-- `ServerError::to_client_message`: convert an error into the protocol-level
`Error` response.  The `msg_id_ref` is the originating request's id when known,
the empty string otherwise (`msg_id_ref.unwrap_or("".to_string())`); the `code`
is the taxonomy variant name; the text chains the cause messages when a cause
is attached. -/
def ServerError.toClientMessage (e : ServerError) (msgIdRef : Option String) :
    ServerClientMessage :=
  let msgId := msgIdRef.getD ""
  match e.cause with
  | some src =>
      .error msgId e.variantName
        (some (e.display ++ ": " ++ collectErrorMessages src))
  | none => .error msgId e.variantName (some e.display)

/-! ## Configuration and effects

`Config` is the per-connection read-only configuration (homework-16
server/src/config.rs).  `Effects` packages the external collaborators a
storage operation consults: the clock (`Utc::now().to_rfc3339_opts(Secs,
true)` rendered as a string), the filesystem (`File::create` + `write_all`,
returning an error or succeeding), and the image crate's decoder/encoder. -/

structure Config where
  fileDir : String
  imageDir : String
  debug : String

structure Effects where
  /-- Current UTC time, already rendered by `to_rfc3339_opts(Secs, true)`. -/
  now : String
  /-- `File::create(path)` followed by `write_all(bytes)`: `none` on success,
  the boxed io error on failure. -/
  writeResult : String → List Nat → Option DynError
  /-- `ImageReader::decode` on a byte buffer: `ok` when the buffer decodes as
  an image, the boxed image-crate error otherwise. -/
  decodeImage : List Nat → Except DynError Unit
  /-- `img.write_to(..., ImageFormat::Png)`: the PNG re-encoding of the image
  decoded from the given original buffer. -/
  encodePng : List Nat → List Nat

/-! ## Base64 (URL_SAFE alphabet, NO_PAD)

Modelled from the spec: the Storage Pipeline's transport decoding step
("Decode `base64Content`; failure yields `InvalidEncoding`") is implemented by
the external `base64` crate (`common/src/util.rs` builds an engine from
`alphabet::URL_SAFE` with `general_purpose::NO_PAD`), which is not under
`src/`; the decoder and encoder below follow that documented configuration. -/

/-- Value of one character of the URL-safe base64 alphabet. -/
def b64CharValue (c : Char) : Option Nat :=
  if 65 ≤ c.toNat ∧ c.toNat ≤ 90 then some (c.toNat - 65)
  else if 97 ≤ c.toNat ∧ c.toNat ≤ 122 then some (c.toNat - 97 + 26)
  else if 48 ≤ c.toNat ∧ c.toNat ≤ 57 then some (c.toNat - 48 + 52)
  else if c = '-' then some 62
  else if c = '_' then some 63
  else none

/-- Reassemble bytes from 6-bit groups; a trailing group of one symbol, or
nonzero trailing bits, is invalid (the crate's canonical NO_PAD decoding). -/
def sextetsToBytes : List Nat → Option (List Nat)
  | [] => some []
  | [_] => none
  | [a, b] => if b % 16 = 0 then some [a * 4 + b / 16] else none
  | [a, b, c] =>
      if c % 4 = 0 then some [a * 4 + b / 16, b % 16 * 16 + c / 4] else none
  | a :: b :: c :: d :: rest =>
      (sextetsToBytes rest).map
        (fun tail =>
          (a * 4 + b / 16) :: (b % 16 * 16 + c / 4) :: (c % 4 * 64 + d) :: tail)

/-- `base64_decode` from common/src/util.rs (URL_SAFE, NO_PAD engine). -/
def base64Decode (s : String) : Except String (List Nat) :=
  match s.toList.mapM b64CharValue with
  | none => .error "Invalid symbol"
  | some sextets =>
    match sextetsToBytes sextets with
    | none => .error "Invalid input length or trailing bits"
    | some bytes => .ok bytes

/-- Split bytes into 6-bit groups for encoding. -/
def bytesToSextets : List Nat → List Nat
  | [] => []
  | [a] => [a / 4, a % 4 * 16]
  | [a, b] => [a / 4, a % 4 * 16 + b / 16, b % 16 * 4]
  | a :: b :: c :: rest =>
      (a / 4) :: (a % 4 * 16 + b / 16) :: (b % 16 * 4 + c / 64) :: (c % 64) ::
        bytesToSextets rest

/-- Character for one 6-bit group of the URL-safe alphabet. -/
def b64Char (n : Nat) : Char :=
  if n < 26 then Char.ofNat (65 + n)
  else if n < 52 then Char.ofNat (97 + n - 26)
  else if n < 62 then Char.ofNat (48 + n - 52)
  else if n = 62 then '-'
  else '_'

/-- `base64_encode` from common/src/util.rs (URL_SAFE, NO_PAD engine). -/
def base64Encode (bytes : List Nat) : String :=
  String.mk ((bytesToSextets bytes).map b64Char)

/-! ## Storage pipeline (homework-13/server/src/file.rs) -/

/-- Split a character list at every occurrence of a separator character
(the semantics of `String.splitOn` with a one-character separator, written
out structurally so that proofs can evaluate it). -/
def splitChars (sep : Char) : List Char → List (List Char)
  | [] => [[]]
  | c :: rest =>
    match splitChars sep rest with
    | [] => if c = sep then [[], []] else [[c]]
    | g :: gs => if c = sep then [] :: g :: gs else (c :: g) :: gs

/-- Split a string at every occurrence of a separator character. -/
def splitOnChar (sep : Char) (s : String) : List String :=
  (splitChars sep s.data).map String.mk

/-- `Path::file_name` of a client-supplied name: the last normal component of
the path (`""` and `"."` components are dropped by path normalization), and
`none` when the path has no such final component (empty path, root, or a path
ending in `".."`) — on `none` the source's `.unwrap()` panics. -/
def rustFileName (path : String) : Option String :=
  let comps := (splitOnChar '/' path).filter (fun c => c ≠ "" ∧ c ≠ ".")
  match comps.getLast? with
  | none => none
  | some last => if last = ".." then none else some last

/-- The regex `[:+]` replaced with `"-"` (character-wise, as in
`re.replace_all(..., "-")`). -/
def stripColonsPlus (s : String) : String :=
  String.mk (s.data.map (fun c => if c = ':' || c = '+' then '-' else c))

/-- `get_target_file`: basename of the client-supplied filename, prefixed with
the sanitized UTC timestamp, joined under the storage directory.  `none`
models the panic of `path.file_name().unwrap()` when the filename has no
final normal component. -/
def getTargetFile (now : String) (filename : String) (directory : String) :
    Option String :=
  (rustFileName filename).map
    (fun fname => directory ++ "/" ++ stripColonsPlus now ++ "_" ++ fname)

/-- Result of `store_file`, enriched with the filesystem write it performed so
that theorems can speak about the stored content. -/
inductive StoreOutcome where
  | panic
  | err (e : DynError)
  | ok (resultMsg : String) (writtenPath : String) (writtenBytes : List Nat)

/-- `store_file`: decode the base64 content (failure: `InvalidEncoding`),
compute the target path, optionally post-process, write the bytes, and render
the result line. -/
def storeFile (eff : Effects) (filename directory content : String)
    (postProcessor :
      Option (List Nat → String → Except DynError (List Nat × String × Bool))) :
    StoreOutcome :=
  match base64Decode content with
  | .error msg =>
      .err (.server (.invalidEncoding "Decoding failed" (some (.decodeError msg))))
  | .ok buffer =>
    match getTargetFile eff.now filename directory with
    | none => .panic
    | some targetFile =>
      match postProcessor with
      | some processor =>
        match processor buffer targetFile with
        | .error e => .err e
        | .ok (targetBuffer, newTargetFile, converted) =>
          match eff.writeResult newTargetFile targetBuffer with
          | some e => .err e
          | none =>
            let resultMsg :=
              if converted then
                "Received " ++ toString buffer.length ++
                  " bytes and converted to " ++ toString targetBuffer.length ++
                  " bytes in " ++ newTargetFile
              else
                "Stored " ++ toString buffer.length ++ " bytes in " ++
                  newTargetFile
            .ok resultMsg newTargetFile targetBuffer
      | none =>
        match eff.writeResult targetFile buffer with
        | some e => .err e
        | none =>
          .ok ("Stored " ++ toString buffer.length ++ " bytes in " ++ targetFile)
            targetFile buffer

/-! ## Image post-processing (homework-13/server/src/file.rs) -/

/-- The image formats relevant to the pipeline.  `with_guessed_format` detects
the format from the buffer's magic bytes (modelled for the formats exercised
here; any other content yields `none`). -/
inductive RustImageFormat where
  | png
  | jpeg
  | gif
deriving Repr, DecidableEq

/-- Format detection by magic bytes, as the image crate's
`with_guessed_format` does on a `Cursor` (which itself cannot fail). -/
def guessFormat (buffer : List Nat) : Option RustImageFormat :=
  if [0x89, 0x50, 0x4E, 0x47, 0x0D, 0x0A, 0x1A, 0x0A].isPrefixOf buffer then
    some .png
  else if [0xFF, 0xD8, 0xFF].isPrefixOf buffer then some .jpeg
  else if [0x47, 0x49, 0x46, 0x38].isPrefixOf buffer then some .gif
  else none

/-- `rsplit_once('.')`: split at the last dot, `none` when the string has no
dot. -/
def rsplitOnceDot (s : String) : Option (String × String) :=
  let parts := splitOnChar '.' s
  match parts with
  | [] => none
  | [_] => none
  | _ => some (String.intercalate "." parts.dropLast, parts.getLast!)

/-- `post_process_image`: decode the buffer (failure:
`ImageProcessingFailed("Failed to decode image")`), guess the format; PNG is
returned unchanged with `converted = false`; an unknown format is
`ImageProcessingFailed("Unknown image format")`; any other format is
re-encoded to PNG and the target filename's extension replaced (or appended)
with `.png`, with `converted = true`.  Errors are `ServerError`s boxed into
`dyn Error`. -/
def postProcessImage (decodeImage : List Nat → Except DynError Unit)
    (encodePng : List Nat → List Nat) (buffer : List Nat) (targetFile : String) :
    Except DynError (List Nat × String × Bool) :=
  match decodeImage buffer with
  | .error e =>
      .error (.server (.imageProcessingFailed "Failed to decode image" (some e)))
  | .ok _ =>
    match guessFormat buffer with
    | none => .error (.server (.imageProcessingFailed "Unknown image format" none))
    | some .png => .ok (buffer, targetFile, false)
    | some _ =>
      let pngTargetFile :=
        match rsplitOnceDot targetFile with
        | none => targetFile ++ ".png"
        | some (base, _) => base ++ ".png"
      .ok (encodePng buffer, pngTargetFile, true)

/-! ## Command dispatcher (homework-16/server/src/command.rs)

The source registers the six commands in a `lazy_static` `HashMap` from the
discriminant name to a description plus handler function.  The embedding
splits that map into its static data (`commandList`, recorded in source
insertion order — a Rust `HashMap`'s iteration order is unspecified and
randomized per process) and the name-to-handler lookup (`commandFunc`),
because `help` reads the very table it is registered in. -/

/-- Rust `Debug` rendering of a string (quotes; `"` and `\` escaped — the
further escapes `escape_debug` performs are not needed by any input below). -/
def debugString (s : String) : String :=
  "\"" ++
    String.mk (s.data.flatMap
      (fun c => if c = '"' ∨ c = '\\' then ['\\', c] else [c])) ++
  "\""

/-- Derived `Debug` rendering of a `Payload` value. -/
def debugPayload : Payload → String
  | .help => "Help"
  | .info i h =>
      "Info \x7b info: " ++ debugString i ++ ", hostname: " ++ debugString h ++
        " \x7d"
  | .msg t => "Msg \x7b text: " ++ debugString t ++ " \x7d"
  | .file f c =>
      "File \x7b filename: " ++ debugString f ++ ", content: " ++
        debugString c ++ " \x7d"
  | .image f c =>
      "Image \x7b filename: " ++ debugString f ++ ", content: " ++
        debugString c ++ " \x7d"
  | .quit => "Quit"

/-- `Display` of a `ClientServerMessage` (which delegates to the custom
`Debug` implementation built with `debug_struct`). -/
def displayClientServerMessage (m : ClientServerMessage) : String :=
  "ClientServerMessage \x7b msg_id: " ++ debugString m.msgId ++ ", payload: " ++
    (match m.payload with
     | none => "None"
     | some p => "Some(" ++ debugPayload p ++ ")") ++ " \x7d"

/-- The static data of the `COMMANDS` table: discriminant name and one-line
description, in source insertion order. -/
def commandList : List (String × String) :=
  [("Help", "Lists all commands"),
   ("Info", "Logs an info text on server side"),
   ("Msg", "Sends a message"),
   ("File", "Stores a generic file"),
   ("Image", "Stores an image file"),
   ("Quit", "Finalizes the communication, closes the stream")]

/-- The registered command names in table order. -/
def commandNames : List String := commandList.map (fun kv => kv.1)

/-- The listing `help` builds: one `"  <name>: <description>"` line per table
entry, joined with newlines under the `"Available commands:"` header. -/
def helpText : String :=
  "Available commands:\n" ++
    String.intercalate "\n"
      (commandList.map (fun kv => "  " ++ kv.1 ++ ": " ++ kv.2))

/-- The result type of a handler: `none` models a panic inside the handler
(a `StoreOutcome.panic`); otherwise the handler's `Result<ServerClientMessage,
Box<dyn Error>>`. -/
abbrev HandlerResult := Option (Except DynError ServerClientMessage)

/-- `help`: list all registered commands. -/
def help (message : ClientServerMessage) (_config : Config) (_eff : Effects) :
    HandlerResult :=
  some (.ok (.ok message.msgId (some helpText)))

/-- `info`: log and echo the info text; a structural mismatch between the
dispatched name and the payload is a defensive error. -/
def info (message : ClientServerMessage) (_config : Config) (_eff : Effects) :
    HandlerResult :=
  match message.payload with
  | some (.info i _) =>
      some (.ok (.ok message.msgId (some ("Info received: " ++ i))))
  | _ =>
      some (.error (.strError
        ("Invalid message type: " ++ displayClientServerMessage message)))

/-- `msg`: log and echo the message text. -/
def msg (message : ClientServerMessage) (_config : Config) (_eff : Effects) :
    HandlerResult :=
  match message.payload with
  | some (.msg t) =>
      some (.ok (.ok message.msgId (some ("Message received: " ++ t))))
  | _ =>
      some (.error (.strError
        ("Invalid message type: " ++ displayClientServerMessage message)))

/-- `file`: store a generic file via the storage pipeline, no post-processor. -/
def file (message : ClientServerMessage) (config : Config) (eff : Effects) :
    HandlerResult :=
  match message.payload with
  | some (.file filename content) =>
    match storeFile eff filename config.fileDir content none with
    | .panic => none
    | .err e => some (.error e)
    | .ok resultMsg _ _ => some (.ok (.ok message.msgId (some resultMsg)))
  | _ =>
      some (.error (.strError
        ("Invalid message type: " ++ displayClientServerMessage message)))

/-- `image`: store an image via the storage pipeline with
`post_process_image`. -/
def image (message : ClientServerMessage) (config : Config) (eff : Effects) :
    HandlerResult :=
  match message.payload with
  | some (.image filename content) =>
    match storeFile eff filename config.imageDir content
        (some (postProcessImage eff.decodeImage eff.encodePng)) with
    | .panic => none
    | .err e => some (.error e)
    | .ok resultMsg _ _ => some (.ok (.ok message.msgId (some resultMsg)))
  | _ =>
      some (.error (.strError
        ("Invalid message type: " ++ displayClientServerMessage message)))

/-- `quit`: finalize the session with a fixed farewell. -/
def quit (message : ClientServerMessage) (_config : Config) (_eff : Effects) :
    HandlerResult :=
  some (.ok (.quit message.msgId (some "Hasta la vista")))

/-- `COMMANDS.get(command_name)`: the handler registered under a discriminant
name. -/
def commandFunc (name : String) :
    Option (ClientServerMessage → Config → Effects → HandlerResult) :=
  if name = "Help" then some help
  else if name = "Info" then some info
  else if name = "Msg" then some msg
  else if name = "File" then some file
  else if name = "Image" then some image
  else if name = "Quit" then some quit
  else none

/-- The `{:?}` rendering of `COMMANDS.keys().collect::<Vec<_>>()` (in the
modelled table order). -/
def commandKeysDebug : String :=
  "[" ++ String.intercalate ", " (commandNames.map debugString) ++ "]"

/-- `handle_command`: look the payload's discriminant up in the table and run
the handler; a missing payload, or a name the table does not know, is a plain
string error. -/
def handleCommand (message : ClientServerMessage) (config : Config)
    (eff : Effects) : HandlerResult :=
  match message.payload with
  | some payload =>
    match commandFunc payload.variantName with
    | some f => f message config eff
    | none =>
        some (.error (.strError
          ("Invalid command " ++ payload.variantName ++ ", valid are: " ++
            commandKeysDebug)))
  | none => some (.error (.strError "No payload found in message"))

/-! ## Connection loop (homework-16/server/src/stream_handler.rs) -/

/-- The dispatch step of `handle_stream` for a successfully received message:
run `handle_command` and wrap any propagated error as
`MessageProcessingFailed` carrying the request's `msg_id`.  `none` models a
handler panic (which kills the connection thread). -/
def processMessage (m : ClientServerMessage) (config : Config) (eff : Effects) :
    Option ServerClientMessage :=
  match handleCommand m config eff with
  | none => none
  | some (.ok response) => some response
  | some (.error e) =>
      some ((ServerError.messageProcessingFailed "Failed to process message"
        (some e)).toClientMessage (some m.msgId))

/-- Big-endian interpretation of the 4-byte length prefix
(`u32::from_be_bytes`). -/
def beBytesToNat (bytes : List Nat) : Nat :=
  bytes.foldl (fun acc b => acc * 256 + b) 0

/-- The io error `read_exact` produces when the stream ends early. -/
def eofCause : DynError := .ioError "UnexpectedEof" "failed to fill whole buffer"

/-- The `MessageReceiveFailed` error for a short read of the length prefix. -/
def recvLenError : ServerError :=
  .messageReceiveFailed "Failed to read message length" (some eofCause)

/-- The `MessageReceiveFailed` error for a short read of the message body. -/
def recvBodyError : ServerError :=
  .messageReceiveFailed "Failed to read message" (some eofCause)

/-- `receive_message`: read exactly 4 length bytes (failure:
`MessageReceiveFailed`), then exactly that many body bytes (failure:
`MessageReceiveFailed`), then parse the body (failure:
`MessageProcessingFailed`).  The stream is the list of bytes it will yield
before end-of-stream; the body parser (`serde_json::from_slice`) is supplied
as a parameter since the textual JSON parser is external.  The second
component is what remains of the stream (a failed `read_exact` consumes the
partial data it read). -/
def receiveMessage (parse : List Nat → Except String ClientServerMessage)
    (input : List Nat) :
    Except ServerError ClientServerMessage × List Nat :=
  if input.length < 4 then (.error recvLenError, [])
  else
    let length := beBytesToNat (input.take 4)
    let rest := input.drop 4
    if rest.length < length then (.error recvBodyError, [])
    else
      match parse (rest.take length) with
      | .error e =>
          (.error (.messageProcessingFailed "Failed to parse message"
            (some (.serdeError e))), rest.drop length)
      | .ok m => (.ok m, rest.drop length)

/-- The scripted outcome of one `send_response` call on the peer's stream. -/
inductive SendResult where
  | okSend
  | brokenPipe
  | otherFailure

/-- One observable step of the connection loop. -/
inductive TraceEvent where
  | recvOk (m : ClientServerMessage)
  | recvErr (e : ServerError)
  | sendOk (r : ServerClientMessage)
  | sendFailBrokenPipe (r : ServerClientMessage)
  | sendFailOther (r : ServerClientMessage)
  | panicked
  | terminated

/-- Whether a trace event is the loop blocking on `receive_message`
(entering `AWAITING_REQUEST`). -/
def TraceEvent.isRecv : TraceEvent → Bool
  | .recvOk _ => true
  | .recvErr _ => true
  | _ => false

/-- Whether a trace event is the loop ending the connection. -/
def TraceEvent.isTerminated : TraceEvent → Bool
  | .terminated => true
  | _ => false

/-- Whether a response is the `Quit` variant (`if let
ServerClientMessage::Quit { .. }`). -/
def ServerClientMessage.isQuit : ServerClientMessage → Bool
  | .quit _ _ => true
  | _ => false

/-- `handle_stream`: the per-connection loop.  Each iteration receives from
the (remaining) input stream, dispatches or synthesizes an error response,
sends it (consuming the next scripted send outcome), breaks out of the
connection on a broken-pipe send failure, logs and falls through on any other
send failure, and terminates after sending a `Quit` response; otherwise it
loops.  `fuel` bounds the number of iterations observed; an empty send script
likewise just ends the observation.  The trace records every receive attempt,
send attempt and termination: each iteration contributes its receive event
followed by the events of the send phase. -/
def handleStream (config : Config) (eff : Effects)
    (parse : List Nat → Except String ClientServerMessage) :
    Nat → List Nat → List SendResult → List TraceEvent
  | 0, _, _ => []
  | fuel + 1, input, sends =>
    let received := receiveMessage parse input
    let ev : TraceEvent :=
      match received.1 with
      | .error e => .recvErr e
      | .ok m => .recvOk m
    let response? : Option ServerClientMessage :=
      match received.1 with
      | .error e => some (e.toClientMessage none)
      | .ok m => processMessage m config eff
    ev ::
      (match response? with
       | none => [.panicked]
       | some response =>
         match sends with
         | [] => []
         | send :: sendsRest =>
           match send with
           | .brokenPipe => [.sendFailBrokenPipe response, .terminated]
           | .okSend =>
             if response.isQuit then [.sendOk response, .terminated]
             else .sendOk response ::
               handleStream config eff parse fuel received.2 sendsRest
           | .otherFailure =>
             if response.isQuit then [.sendFailOther response, .terminated]
             else .sendFailOther response ::
               handleStream config eff parse fuel received.2 sendsRest)

/-- Send events after which `handle_stream` is allowed to end the connection:
sending a `Quit` response (successfully, or with a non-fatal failure that
still reaches the `Quit` check), or a broken-pipe send failure. -/
def justifiesTermination : TraceEvent → Bool
  | .sendOk r => r.isQuit
  | .sendFailOther r => r.isQuit
  | .sendFailBrokenPipe _ => true
  | _ => false

/-- A trace terminates only for a justified reason: it does not begin with
`terminated`, and every `terminated` event immediately follows a `Quit`
response send or a broken-pipe send failure. -/
def terminatesOnlyJustified (l : List TraceEvent) : Prop :=
  (∀ e, l.head? = some e → e.isTerminated = false) ∧
    List.Chain'
      (fun a b => b.isTerminated = true → justifiesTermination a = true) l

/-- The `MessageReceiveFailed` error a stream that ends too early produces:
the length-read error when even the 4-byte prefix is short, the body-read
error otherwise. -/
def shortReadError (input : List Nat) : ServerError :=
  if input.length < 4 then recvLenError else recvBodyError

/-- Lexicographic comparison of character lists by code point — the order
Rust sorts strings by. -/
def lexLeChars : List Char → List Char → Bool
  | [], _ => true
  | _ :: _, [] => false
  | a :: as, b :: bs =>
    if a.toNat < b.toNat then true
    else if a.toNat = b.toNat then lexLeChars as bs
    else false

/-- String comparison by code points (the order `sort` would use). -/
def strLe (a b : String) : Bool := lexLeChars a.data b.data

/-- A name listing is sorted by name when consecutive entries are in
non-descending string order. -/
def sortedByName (names : List String) : Prop :=
  names.Chain' (fun a b => strLe a b = true)

/-! ## Concrete sample values used by witnesses and counterexamples -/

/-- A concrete per-connection configuration. -/
def sampleConfig : Config := ⟨"files", "images", "false"⟩

/-- A concrete image decoder: succeeds exactly on buffers whose format the
magic-byte detection recognizes. -/
def sampleDecodeImage : List Nat → Except DynError Unit :=
  fun b =>
    if (guessFormat b).isSome then .ok ()
    else .error (.imageError "format error")

/-- Concrete effects: a fixed clock, a filesystem whose writes succeed, the
sample image decoder and an identity PNG encoder. -/
def sampleEffects : Effects :=
  ⟨"2026-10-12T10:00:00Z", fun _ _ => none, sampleDecodeImage, fun b => b⟩

/-- A concrete body parser (never consulted by the claims that use it). -/
def sampleParse : List Nat → Except String ClientServerMessage :=
  fun _ => .error "expected value"

/-- A request that carries no payload. -/
def noPayloadMessage : ClientServerMessage := ⟨"id-1", none⟩

/-- The UTF-8 bytes of `"hello"`. -/
def helloBytes : List Nat := [104, 101, 108, 108, 111]

/-- The PNG magic prefix, a minimal buffer the format detection classifies as
PNG. -/
def pngMagicBytes : List Nat := [137, 80, 78, 71, 13, 10, 26, 10]

end Rustical

namespace Rustical

/-- Claim C1: for every valid request made of a msg_id string and one of the
six `Payload` variants, serializing the request to its JSON body and parsing
that body back yields a request equal to the original in the msg_id and every
payload field. -/
theorem C1_wire_roundtrip (id : String) (p : Payload) :
    clientServerMessageFromJson (clientServerMessageToJson ⟨id, some p⟩) =
      some ⟨id, some p⟩ := by
  cases p <;> rfl

/-- Claim C10: for every `Payload` variant and every field name declared by
some variant (`info`, `hostname`, `text`, `filename`, `content`),
`Payload::get` returns `None`: the serialized form exposes only the top-level
keys `type` and `data`, and the variant's fields are nested under `data`. -/
theorem C10_payload_get_variant_fields_none (p : Payload) :
    p.get "info" = none ∧ p.get "hostname" = none ∧ p.get "text" = none ∧
      p.get "filename" = none ∧ p.get "content" = none := by
  cases p <;> exact ⟨rfl, rfl, rfl, rfl, rfl⟩

/-- Claim C4 (counterexample): converting a receive failure that occurred
before any request could be parsed yields `msg_id_ref` equal to the empty
string — a zero-length string, not an all-zero sentinel identifier such as
the all-zero UUID. -/
theorem C4_sentinel_is_empty_string :
    ((ServerError.messageReceiveFailed "Failed to read message length"
        (some eofCause)).toClientMessage none).msgIdRef = "" ∧
      ("" : String).length = 0 ∧
      ("" : String) ≠ "00000000-0000-0000-0000-000000000000" :=
  ⟨rfl, rfl, by decide⟩

/-- Claim C4 (amended): for every server error converted to an `Error`
response, `msg_id_ref` equals the originating request's msg_id when that
request was parsed, and equals the empty string when the failure occurred
before a request could be parsed. -/
theorem C4_msg_id_ref_policy (e : ServerError) (id : String) :
    (e.toClientMessage (some id)).msgIdRef = id ∧
      (e.toClientMessage none).msgIdRef = "" := by
  unfold ServerError.toClientMessage
  cases e.cause <;> exact ⟨rfl, rfl⟩

/-- Claim C3 (counterexample): dispatching a request with a missing payload
produces an `Error` response whose code is `MessageProcessingFailed`, not
`GeneralIssue` — the dispatcher's plain string error is wrapped at the loop
boundary. -/
theorem C3_missing_payload_code_not_general_issue :
    processMessage noPayloadMessage sampleConfig sampleEffects =
      some (.error "id-1" "MessageProcessingFailed"
        (some "Message processing failed: Failed to process message: Error: No payload found in message")) ∧
      "MessageProcessingFailed" ≠ "GeneralIssue" :=
  ⟨rfl, by decide⟩

/-- Claim C3 (amended): for every request whose payload is missing, dispatch
produces an `Error` response whose code is `MessageProcessingFailed` and whose
chained text reports that no payload was found; a payload discriminant outside
the six registered ones cannot occur, since `Payload` is a closed enum whose
`variant_name` always hits the table, and the table's lookup succeeds on
exactly the six registered names. -/
theorem C3_missing_payload_response (m : ClientServerMessage) (config : Config)
    (eff : Effects) (h : m.payload = none) :
    processMessage m config eff =
      some (.error m.msgId "MessageProcessingFailed"
        (some "Message processing failed: Failed to process message: Error: No payload found in message")) ∧
      (∀ p : Payload, (commandFunc p.variantName).isSome = true) ∧
      (∀ name : String,
        (commandFunc name).isSome = true ↔ name ∈ commandNames) := by
  refine ⟨?_, fun p => by cases p <;> rfl, ?_⟩
  · obtain ⟨id, pl⟩ := m
    simp only at h
    subst h
    rfl
  · intro name
    constructor
    · intro hsome
      unfold commandFunc at hsome
      split_ifs at hsome with h1 h2 h3 h4 h5 h6
      · subst h1
        decide
      · subst h2
        decide
      · subst h3
        decide
      · subst h4
        decide
      · subst h5
        decide
      · subst h6
        decide
      · simp at hsome
    · intro hmem
      unfold commandFunc
      split_ifs with h1 h2 h3 h4 h5 h6
      · rfl
      · rfl
      · rfl
      · rfl
      · rfl
      · rfl
      · exfalso
        simp [commandNames, commandList] at hmem
        rcases hmem with h0 | h0 | h0 | h0 | h0 | h0 <;>
          exact absurd h0 (by assumption)

/-- Claim C3 (amended) witness at a concrete payload-free request. -/
theorem C3_missing_payload_response_witness :
    noPayloadMessage.payload = none ∧
      processMessage noPayloadMessage sampleConfig sampleEffects =
        some (.error noPayloadMessage.msgId "MessageProcessingFailed"
          (some "Message processing failed: Failed to process message: Error: No payload found in message")) :=
  ⟨rfl,
    (C3_missing_payload_response noPayloadMessage sampleConfig sampleEffects
      rfl).1⟩

set_option maxRecDepth 8192 in
/-- Claim C5 (counterexample): dispatching a concrete `Help` request returns
the table's listing, whose command-name order
`Help, Info, Msg, File, Image, Quit` is not sorted by name (`Msg` precedes
`File`): the source iterates a `HashMap` without sorting. -/
theorem C5_help_listing_not_sorted :
    handleCommand ⟨"id-2", some .help⟩ sampleConfig sampleEffects =
      some (.ok (.ok "id-2" (some helpText))) ∧
      splitOnChar '\n' helpText =
        "Available commands:" ::
          commandList.map (fun kv => "  " ++ kv.1 ++ ": " ++ kv.2) ∧
      commandNames = ["Help", "Info", "Msg", "File", "Image", "Quit"] ∧
      ¬ sortedByName commandNames :=
  ⟨rfl, rfl, rfl, by
    intro hsort
    simp only [sortedByName, commandNames, commandList, List.map,
      List.chain'_cons, List.chain'_singleton, and_true] at hsort
    exact absurd hsort.2.2.1 (by decide)⟩

set_option maxRecDepth 8192 in
/-- Claim C5 (amended): for every `Help` request, the dispatcher returns an
`Ok` response echoing the request's msg_id whose text lists all six
registered command discriminants with their one-line descriptions, one line
per command, in the command table's iteration order (a `HashMap`, not sorted
by name). -/
theorem C5_help_response (id : String) (config : Config) (eff : Effects) :
    handleCommand ⟨id, some .help⟩ config eff =
      some (.ok (.ok id (some helpText))) ∧
      splitOnChar '\n' helpText =
        "Available commands:" ::
          commandList.map (fun kv => "  " ++ kv.1 ++ ": " ++ kv.2) ∧
      commandList.length = 6 :=
  ⟨rfl, rfl, rfl⟩

/-- Claim C6: storing filename `"a.txt"` with the base64 encoding of
`"hello"` and no post-processor succeeds when the filesystem write succeeds,
writes the decoded bytes `"hello"` to a path directly under the directory
whose filename ends with `"_a.txt"`, and returns a result line carrying the
stored byte count and that path. -/
theorem C6_store_hello (eff : Effects) (dir : String)
    (h : eff.writeResult
        (dir ++ "/" ++ stripColonsPlus eff.now ++ "_" ++ "a.txt")
        helloBytes = none) :
    storeFile eff "a.txt" dir (base64Encode helloBytes) none =
      .ok ("Stored 5 bytes in " ++
            (dir ++ "/" ++ stripColonsPlus eff.now ++ "_" ++ "a.txt"))
        (dir ++ "/" ++ stripColonsPlus eff.now ++ "_" ++ "a.txt") helloBytes ∧
      (∃ pre, dir ++ "/" ++ stripColonsPlus eff.now ++ "_" ++ "a.txt" =
        pre ++ "_" ++ "a.txt") := by
  have hb : base64Decode (base64Encode helloBytes) = .ok helloBytes := rfl
  have ht : getTargetFile eff.now "a.txt" dir =
      some (dir ++ "/" ++ stripColonsPlus eff.now ++ "_" ++ "a.txt") := rfl
  refine ⟨?_, ⟨dir ++ "/" ++ stripColonsPlus eff.now, rfl⟩⟩
  simp only [storeFile, hb, ht, h]
  rfl

/-- Claim C6 witness at the sample effects and directory `"files"`. -/
theorem C6_store_hello_witness :
    sampleEffects.writeResult
        ("files" ++ "/" ++ stripColonsPlus sampleEffects.now ++ "_" ++ "a.txt")
        helloBytes = none ∧
      storeFile sampleEffects "a.txt" "files" (base64Encode helloBytes) none =
        .ok ("Stored 5 bytes in " ++
              ("files" ++ "/" ++ stripColonsPlus sampleEffects.now ++ "_" ++
                "a.txt"))
          ("files" ++ "/" ++ stripColonsPlus sampleEffects.now ++ "_" ++ "a.txt")
          helloBytes :=
  ⟨rfl, (C6_store_hello sampleEffects "files" rfl).1⟩

/-- Claim C7: for every stream that ends before the 4 length-prefix bytes, or
before the `N` body bytes the big-endian prefix announces, `receive_message`
fails with a `MessageReceiveFailed` error (and, being a total function of the
stream contents, never panics). -/
theorem C7_short_stream_receive_fails
    (parse : List Nat → Except String ClientServerMessage) (input : List Nat)
    (h : input.length < 4 + beBytesToNat (input.take 4)) :
    (receiveMessage parse input).1 =
      .error (if input.length < 4 then recvLenError else recvBodyError) ∧
      (if input.length < 4 then recvLenError else recvBodyError).variantName =
        "MessageReceiveFailed" := by
  by_cases h4 : input.length < 4
  · simp [receiveMessage, h4, recvLenError, ServerError.variantName]
  · have hrest : input.length - 4 < beBytesToNat (input.take 4) := by omega
    simp [receiveMessage, h4, hrest, recvBodyError, ServerError.variantName]

/-- Claim C7 witness: a frame announcing 5 body bytes but delivering none. -/
theorem C7_short_stream_witness :
    (([0, 0, 0, 5] : List Nat).length <
        4 + beBytesToNat (([0, 0, 0, 5] : List Nat).take 4)) ∧
      (receiveMessage sampleParse [0, 0, 0, 5]).1 =
        .error (if ([0, 0, 0, 5] : List Nat).length < 4 then recvLenError
          else recvBodyError) :=
  ⟨by decide, (C7_short_stream_receive_fails sampleParse [0, 0, 0, 5]
    (by decide)).1⟩

/-- Claim C8: for every byte buffer that decodes as an image and whose
detected format is PNG, `post_process_image` returns `wasConverted = false`
with the byte buffer and target path unchanged; consequently re-processing
its own output is a no-op. -/
theorem C8_png_buffer_unchanged
    (decodeImage : List Nat → Except DynError Unit)
    (encodePng : List Nat → List Nat) (buffer : List Nat) (target : String)
    (hdec : decodeImage buffer = .ok ())
    (hfmt : guessFormat buffer = some .png) :
    postProcessImage decodeImage encodePng buffer target =
      .ok (buffer, target, false) ∧
      (∀ outBuf outPath conv,
        postProcessImage decodeImage encodePng buffer target =
          .ok (outBuf, outPath, conv) →
        postProcessImage decodeImage encodePng outBuf outPath =
          .ok (outBuf, outPath, false)) := by
  have h1 : postProcessImage decodeImage encodePng buffer target =
      .ok (buffer, target, false) := by
    simp [postProcessImage, hdec, hfmt]
  refine ⟨h1, ?_⟩
  intro outBuf outPath conv hout
  rw [h1] at hout
  simp only [Except.ok.injEq, Prod.mk.injEq] at hout
  obtain ⟨hb, hp, _⟩ := hout
  subst hb
  subst hp
  exact h1

/-- Claim C8 witness at the PNG magic buffer. -/
theorem C8_png_buffer_unchanged_witness :
    sampleDecodeImage pngMagicBytes = .ok () ∧
      guessFormat pngMagicBytes = some .png ∧
      postProcessImage sampleDecodeImage (fun b => b) pngMagicBytes "img.png" =
        .ok (pngMagicBytes, "img.png", false) :=
  ⟨rfl, rfl, (C8_png_buffer_unchanged sampleDecodeImage (fun b => b)
    pngMagicBytes "img.png" rfl rfl).1⟩

/-- Claim C9: evaluating the target-filename computation at the
client-suppliable filename `".."` — `Path::file_name()` is `None` there, so
the source's `.unwrap()` panics (modelled as `none`/`panic`) instead of
producing a storage failure, contradicting the always-succeeding basename
sanitization the claim describes. -/
theorem C9_target_filename_panics_on_dotdot :
    rustFileName ".." = none ∧
      getTargetFile "2026-10-12T10:00:00Z" ".." "files" = none ∧
      storeFile sampleEffects ".." "files" (base64Encode helloBytes) none =
        .panic :=
  ⟨rfl, rfl, rfl⟩

/-- Claim C2 (counterexample): with a stream that is closed from the start
and sends that succeed, the connection loop receives a failure, sends the
synthesized `MessageReceiveFailed` error response — and then blocks on
`receive_message` again: the trace shows two receive attempts and no
termination, refuting "it never begins awaiting another request after a
receive failure". -/
theorem C2_receive_failure_loops :
    handleStream sampleConfig sampleEffects sampleParse 2 []
        [.okSend, .okSend] =
      [.recvErr recvLenError, .sendOk (recvLenError.toClientMessage none),
        .recvErr recvLenError, .sendOk (recvLenError.toClientMessage none)] ∧
      ((handleStream sampleConfig sampleEffects sampleParse 2 []
          [.okSend, .okSend]).filter TraceEvent.isRecv).length = 2 ∧
      (handleStream sampleConfig sampleEffects sampleParse 2 []
          [.okSend, .okSend]).all (fun ev => ! ev.isTerminated) = true :=
  ⟨rfl, rfl, rfl⟩

/-- Every error converted by `to_client_message` yields the `Error` response
variant, never `Quit`. -/
theorem toClientMessage_not_quit (e : ServerError) (idRef : Option String) :
    (e.toClientMessage idRef).isQuit = false := by
  unfold ServerError.toClientMessage
  cases e.cause <;> rfl

/-- Every nonempty trace of the connection loop begins with a receive attempt
(the loop enters `AWAITING_REQUEST` first in every iteration). -/
theorem handleStream_head_isRecv (config : Config) (eff : Effects)
    (parse : List Nat → Except String ClientServerMessage) (fuel : Nat)
    (input : List Nat) (sends : List SendResult) (e : TraceEvent)
    (he : (handleStream config eff parse fuel input sends).head? = some e) :
    e.isRecv = true := by
  cases fuel with
  | zero => simp [handleStream] at he
  | succ f =>
    simp only [handleStream, List.head?_cons, Option.some.injEq] at he
    subst he
    cases hr : (receiveMessage parse input).1 <;>
      simp [hr, TraceEvent.isRecv]

/-- The connection loop never emits `terminated` except immediately after
sending a `Quit` response or failing a send with a broken pipe: every trace
of `handle_stream` terminates only for a justified reason. -/
theorem handleStream_terminates_only_justified (config : Config)
    (eff : Effects) (parse : List Nat → Except String ClientServerMessage) :
    ∀ (fuel : Nat) (input : List Nat) (sends : List SendResult),
      terminatesOnlyJustified (handleStream config eff parse fuel input sends) := by
  intro fuel
  induction fuel with
  | zero =>
    intro input sends
    exact ⟨fun e he => by simp [handleStream] at he, by simp [handleStream]⟩
  | succ f ih =>
    intro input sends
    constructor
    · intro e he
      have hrecv := handleStream_head_isRecv config eff parse (f + 1) input
        sends e he
      cases e <;> simp_all [TraceEvent.isRecv, TraceEvent.isTerminated]
    · simp only [handleStream]
      cases hr : (receiveMessage parse input).1 with
      | error e1 =>
        simp only [hr]
        cases sends with
        | nil =>
          simp [List.chain'_singleton]
        | cons s rest =>
          cases s with
          | brokenPipe =>
            simp [List.chain'_cons, List.chain'_singleton,
              TraceEvent.isTerminated, justifiesTermination]
          | okSend =>
            have hq : (e1.toClientMessage none).isQuit = false :=
              toClientMessage_not_quit e1 none
            simp only [hq, Bool.false_eq_true, if_false]
            refine List.chain'_cons.mpr ⟨?_, ?_⟩
            · simp [TraceEvent.isTerminated]
            · refine List.Chain'.cons' (ih _ rest).2 ?_
              intro y hy ht
              have hnt := (ih _ rest).1 y hy
              rw [hnt] at ht
              simp at ht
          | otherFailure =>
            have hq : (e1.toClientMessage none).isQuit = false :=
              toClientMessage_not_quit e1 none
            simp only [hq, Bool.false_eq_true, if_false]
            refine List.chain'_cons.mpr ⟨?_, ?_⟩
            · simp [TraceEvent.isTerminated]
            · refine List.Chain'.cons' (ih _ rest).2 ?_
              intro y hy ht
              have hnt := (ih _ rest).1 y hy
              rw [hnt] at ht
              simp at ht
      | ok m =>
        simp only [hr]
        cases hp : processMessage m config eff with
        | none =>
          simp [List.chain'_cons, List.chain'_singleton,
            TraceEvent.isTerminated]
        | some resp =>
          cases sends with
          | nil =>
            simp [List.chain'_singleton]
          | cons s rest =>
            cases s with
            | brokenPipe =>
              simp [List.chain'_cons, List.chain'_singleton,
                TraceEvent.isTerminated, justifiesTermination]
            | okSend =>
              by_cases hq : resp.isQuit = true
              · simp [hq, List.chain'_cons, List.chain'_singleton,
                  TraceEvent.isTerminated, justifiesTermination]
              · have hq2 : resp.isQuit = false := by
                  rwa [Bool.not_eq_true] at hq
                simp only [hq2, Bool.false_eq_true, if_false]
                refine List.chain'_cons.mpr ⟨?_, ?_⟩
                · simp [TraceEvent.isTerminated]
                · refine List.Chain'.cons' (ih _ rest).2 ?_
                  intro y hy ht
                  have hnt := (ih _ rest).1 y hy
                  rw [hnt] at ht
                  simp at ht
            | otherFailure =>
              by_cases hq : resp.isQuit = true
              · simp [hq, List.chain'_cons, List.chain'_singleton,
                  TraceEvent.isTerminated, justifiesTermination]
              · have hq2 : resp.isQuit = false := by
                  rwa [Bool.not_eq_true] at hq
                simp only [hq2, Bool.false_eq_true, if_false]
                refine List.chain'_cons.mpr ⟨?_, ?_⟩
                · simp [TraceEvent.isTerminated]
                · refine List.Chain'.cons' (ih _ rest).2 ?_
                  intro y hy ht
                  have hnt := (ih _ rest).1 y hy
                  rw [hnt] at ht
                  simp at ht

/-- Claim C2 (amended): whenever receiving a message fails because the stream
ends too early — short length prefix (read failure / orderly close) or short
body — the loop sends the synthesized `MessageReceiveFailed` error response
(whether the send succeeds or fails non-fatally) and then loops back to
`AWAITING_REQUEST`: with fuel left the very next event is another receive
attempt.  Moreover every trace of the loop terminates only right after a
`Quit` response or a broken-pipe send failure — never after a receive
failure. -/
theorem C2_receive_failure_sends_then_continues (config : Config)
    (eff : Effects) (parse : List Nat → Except String ClientServerMessage)
    (fuel : Nat) (input : List Nat) (sends : List SendResult)
    (h : input.length < 4 + beBytesToNat (input.take 4)) :
    handleStream config eff parse (fuel + 1) input
        (SendResult.okSend :: sends) =
      .recvErr (shortReadError input) ::
        .sendOk ((shortReadError input).toClientMessage none) ::
          handleStream config eff parse fuel [] sends ∧
      handleStream config eff parse (fuel + 1) input
          (SendResult.otherFailure :: sends) =
        .recvErr (shortReadError input) ::
          .sendFailOther ((shortReadError input).toClientMessage none) ::
            handleStream config eff parse fuel [] sends ∧
      (shortReadError input).variantName = "MessageReceiveFailed" ∧
      (0 < fuel →
        (handleStream config eff parse fuel [] sends).head? =
          some (.recvErr recvLenError)) ∧
      (∀ (fuel2 : Nat) (input2 : List Nat) (sends2 : List SendResult),
        terminatesOnlyJustified
          (handleStream config eff parse fuel2 input2 sends2)) := by
  have hr : receiveMessage parse input =
      (.error (shortReadError input), []) := by
    unfold receiveMessage shortReadError
    by_cases h4 : input.length < 4
    · simp [h4]
    · have hlen : input.length - 4 < beBytesToNat (input.take 4) := by omega
      simp [h4, hlen]
  refine ⟨?_, ?_, ?_, ?_, ?_⟩
  · simp only [handleStream, hr]
    rw [if_neg (by simp [toClientMessage_not_quit])]
  · simp only [handleStream, hr]
    rw [if_neg (by simp [toClientMessage_not_quit])]
  · unfold shortReadError
    split <;> rfl
  · intro hf
    obtain ⟨f, rfl⟩ : ∃ f, fuel = f + 1 := ⟨fuel - 1, by omega⟩
    rfl
  · exact fun fuel2 input2 sends2 =>
      handleStream_terminates_only_justified config eff parse fuel2 input2
        sends2

/-- Claim C2 (amended) witness on a stream that closes immediately, with
succeeding sends. -/
theorem C2_receive_failure_continues_witness :
    (([] : List Nat).length < 4 + beBytesToNat (([] : List Nat).take 4)) ∧
      handleStream sampleConfig sampleEffects sampleParse 2 []
          (SendResult.okSend :: [SendResult.okSend]) =
        .recvErr (shortReadError []) ::
          .sendOk ((shortReadError []).toClientMessage none) ::
            handleStream sampleConfig sampleEffects sampleParse 1 []
              [SendResult.okSend] :=
  ⟨by decide, (C2_receive_failure_sends_then_continues sampleConfig
    sampleEffects sampleParse 1 [] [SendResult.okSend] (by decide)).1⟩

end Rustical
